import Mathlib

/-!
Verification development for the Gemini-live-cam repository.

The repository is integration glue: an `AudioLoop` class
(`gemini_live_cam.py`) wiring camera / screen / microphone / speaker
capture to a vendor SDK live session through asyncio queues, a thin
module-level wrapper (`gemini_key.py`), a FastAPI shell
(`gemini_api.py`) and a Streamlit page (`app.py`).

We shallowly embed the repository's own logic: bytes are `List Nat`
(each element a byte value), asyncio queues are FIFO `List`s, the
opaque SDK session is an identifier, exceptions of endpoint handlers
are `Except`.  Each definition is translated from the named source
function.
-/

namespace GeminiLiveCam

/-! ## Bytes and base64 (`base64.b64encode(...).decode()`) -/

/-- The 64-character base64 alphabet, as used by `base64.b64encode`. -/
def base64Alphabet : List Char :=
  "ABCDEFGHIJKLMNOPQRSTUVWXYZabcdefghijklmnopqrstuvwxyz0123456789+/".toList

/-- The base64 digit for a 6-bit value. -/
def b64char (n : Nat) : Char := base64Alphabet.getD n 'A'

/-- Standard base64 encoding of a byte sequence, with `=` padding:
the embedding of Python's `base64.b64encode(bs).decode()`. -/
def b64encode : List Nat → String
  | [] => ""
  | [a] =>
      let n := (a % 256) * 65536
      String.mk [b64char (n / 262144), b64char (n / 4096 % 64)] ++ "=="
  | [a, b] =>
      let n := (a % 256) * 65536 + (b % 256) * 256
      String.mk [b64char (n / 262144), b64char (n / 4096 % 64),
                 b64char (n / 64 % 64)] ++ "="
  | a :: b :: c :: rest =>
      let n := (a % 256) * 65536 + (b % 256) * 256 + c % 256
      String.mk [b64char (n / 262144), b64char (n / 4096 % 64),
                 b64char (n / 64 % 64), b64char (n % 64)] ++ b64encode rest

/-! ## Payloads placed on `out_queue`

A payload is the Python dict `{"data": ..., "mime_type": ...}`.  The
`data` field is a base64 *string* for image frames
(`base64.b64encode(image_bytes).decode()`) but raw *bytes* for
microphone chunks, so the field is a sum. -/

/-- The `data` field of an outbound payload: either raw bytes or a
(base64) string. -/
inductive PayloadData where
  | bytes (b : List Nat)
  | str (s : String)
  deriving DecidableEq, Repr

/-- An element of `out_queue`: the dict `{"data": ..., "mime_type": ...}`. -/
structure Payload where
  data : PayloadData
  mime_type : String
  deriving DecidableEq, Repr

/-! ## `AudioLoop._get_frame` (gemini_live_cam.py lines 112-140)

`cap.read()` returns `(ret, frame)`; the frame is converted BGR→RGB,
thumbnailed and JPEG-encoded.  We embed the OpenCV/PIL pipeline's
output as the resulting JPEG byte sequence carried by the read result,
since the claims only concern what `_get_frame` does with those bytes. -/

/-- The outcome of one `cap.read()` together with the JPEG bytes the
PIL pipeline produces from the frame when `ret` is true. -/
structure CamRead where
  ret : Bool
  jpegBytes : List Nat
  deriving Repr

/-- Result of `_get_frame`: `None`, the sentinel string
`"ESC_PRESSED"`, or a payload dict. -/
inductive FrameResult where
  | noFrame
  | escPressed
  | payload (p : Payload)
  deriving DecidableEq, Repr

/-- `AudioLoop._get_frame`: returns `None` when the read failed,
`"ESC_PRESSED"` when `cv2.waitKey` reported key 27, and otherwise the
dict `{"mime_type": "image/jpeg", "data": b64encode(image_bytes)}`. -/
def getFrame (cap : CamRead) (key : Int) : FrameResult :=
  if !cap.ret then .noFrame
  else if key == 27 then .escPressed
  else .payload ⟨.str (b64encode cap.jpegBytes), "image/jpeg"⟩

/-- `AudioLoop._get_screen` (lines 176-191): grabs the monitor,
re-encodes to JPEG, and returns
`{"mime_type": "image/jpeg", "data": b64encode(image_bytes)}`.
The mss/PIL pipeline's JPEG output is the argument. -/
def getScreen (jpegBytes : List Nat) : Payload :=
  ⟨.str (b64encode jpegBytes), "image/jpeg"⟩

/-- The payload `AudioLoop.listen_audio` (lines 215-232) enqueues for
one microphone chunk: `{"data": data, "mime_type": "audio/pcm"}`
with `data` the raw bytes read from the stream. -/
def micChunkPayload (data : List Nat) : Payload :=
  ⟨.bytes data, "audio/pcm"⟩

/-! ## `AudioLoop.send_realtime` (lines 204-213)

Each iteration dequeues `msg` from `out_queue` and, when the session
is initialized, calls `session.send_realtime_input` with
`types.Blob(data=msg["data"], mime_type=msg["mime_type"])`; when the
session is `None` it only prints.  We embed the sequence of
`send_realtime_input` calls made while consuming a given queue. -/

/-- The `types.Blob` argument of one `send_realtime_input` call. -/
structure Blob where
  data : PayloadData
  mime_type : String
  deriving DecidableEq, Repr

/-- The opaque SDK live session, by identifier. -/
abbrev Session := Nat

/-- `AudioLoop.send_realtime` consuming the current `out_queue`
content: the list of Blobs passed to `send_realtime_input`, in call
order.  A message dequeued while `session is None` produces no call. -/
def sendRealtime (session : Option Session) : List Payload → List Blob
  | [] => []
  | msg :: rest =>
      match session with
      | some _ => ⟨msg.data, msg.mime_type⟩ :: sendRealtime session rest
      | none => sendRealtime session rest

/-! ## `AudioLoop.receive_audio` (lines 234-255) and
`AudioLoop.play_audio` (lines 257-267) -/

/-- One `response` yielded by `session.receive()`: its `data` and
`text` fields (each possibly `None`). -/
structure LiveResponse where
  data : Option (List Nat)
  text : Option String
  deriving Repr

/-- Python truthiness of `response.data` as tested by
`if data := response.data:`: `None` and empty bytes are falsy. -/
def truthyData (r : LiveResponse) : Option (List Nat) :=
  match r.data with
  | some d => if d.isEmpty then none else some d
  | none => none

/-- The body of the `async for response in turn` loop of
`receive_audio`: enqueue `response.data` on `audio_in_queue` when it
is truthy, otherwise at most print `response.text`. -/
def processResponse (q : List (List Nat)) (r : LiveResponse) : List (List Nat) :=
  match truthyData r with
  | some d => q ++ [d]
  | none => q

/-- The `while not self.audio_in_queue.empty(): get_nowait()` drain
loop at the end of each `receive_audio` turn iteration. -/
def drainQueue : List (List Nat) → List (List Nat)
  | [] => []
  | _ :: rest => drainQueue rest

/-- One full turn iteration of `receive_audio` with an initialized
session: iterate over the turn's responses, then drain
`audio_in_queue`.  Returns the queue after the iteration. -/
def receiveAudioTurn (q : List (List Nat)) (turn : List LiveResponse) :
    List (List Nat) :=
  drainQueue (turn.foldl processResponse q)

/-- `AudioLoop.play_audio` consuming the current `audio_in_queue`
content: each iteration dequeues a bytestream and writes it to the
output stream; the result is the list of chunks written, in write
order. -/
def playAudio : List (List Nat) → List (List Nat)
  | [] => []
  | b :: rest => b :: playAudio rest

/-! ## `AudioLoop.run` (lines 269-298)

Inside the task group, `run` starts `send_text`, `send_realtime`,
`listen_audio`, then the video producer selected by `video_mode`
(`get_frames` for `"camera"`, `get_screen` for `"screen"`, nothing
otherwise), then `receive_audio` and `play_audio`. -/

/-- The video producer task started by `run` for a given `video_mode`
(lines 283-286). -/
def videoTasks (video_mode : String) : List String :=
  if video_mode = "camera" then ["get_frames"]
  else if video_mode = "screen" then ["get_screen"]
  else []

/-- The tasks `AudioLoop.run` creates in its task group, in creation
order (lines 280-289). -/
def runTasks (video_mode : String) : List String :=
  ["send_text", "send_realtime", "listen_audio"]
    ++ videoTasks video_mode
    ++ ["receive_audio", "play_audio"]

/-! ## `AudioLoop` state and `AudioLoop.stop` (lines 300-383) -/

/-- The fields of an `AudioLoop` instance the claims are about.
`audio_stream` is `none` both when the attribute was never set by
`listen_audio` and after `stop` cleared it. -/
structure AudioLoopState where
  video_mode : String
  audio_in_queue : List (List Nat)
  out_queue : List Payload
  session : Option Session
  audio_stream : Option Nat
  deriving Repr

/-- `AudioLoop.__init__(video_mode)` (lines 82-92). -/
def initAudioLoop (video_mode : String) : AudioLoopState :=
  ⟨video_mode, [], [], none, none⟩

/-- The `while not q.empty(): q.get_nowait()` queue-clearing loops of
`stop` (lines 326-329). -/
def clearLoop : List α → List α
  | [] => []
  | _ :: rest => clearLoop rest

/-- `AudioLoop.stop` on the exception-free path: stop and null the
audio stream if present, clear both queues, close and null the session
if present, cancel tasks, and return `True`. -/
def stop (s : AudioLoopState) : AudioLoopState × Bool :=
  let s1 := if s.audio_stream.isSome then { s with audio_stream := none } else s
  let s2 := { s1 with audio_in_queue := clearLoop s1.audio_in_queue,
                      out_queue := clearLoop s1.out_queue }
  let s3 := if s2.session.isSome then { s2 with session := none } else s2
  (s3, true)

/-! ## `gemini_key.py`: the module-level wrapper -/

/-- The `gemini_key` module state: the global `_audio_loop`. -/
structure KeyState where
  audio_loop : Option AudioLoopState

/-- `_ensure_audio_loop(mode)` (gemini_key.py lines 12-17): create the
global instance when it is `None`, otherwise return it unchanged.
Returns the new module state and the loop the wrapper call acts on. -/
def ensureAudioLoop (k : KeyState) (mode : String) : KeyState × AudioLoopState :=
  match k.audio_loop with
  | some l => (k, l)
  | none =>
      let l := initAudioLoop mode
      (⟨some l⟩, l)

/-- `GEMINI_STOP()` (gemini_key.py lines 59-66): result is the new
module state, the returned boolean, and whether `AudioLoop.stop` was
called. -/
def geminiStop (k : KeyState) : KeyState × Bool × Bool :=
  match k.audio_loop with
  | some l => (⟨none⟩, (stop l).2, true)
  | none => (k, true, false)

/-! ## Object identity across the Streamlit page and the FastAPI wrapper

`app.py` never imports `gemini_key`: `start_session` (app.py lines
47-76) spawns `gemini_live_cam.py` as a *subprocess* whose `__main__`
constructs its own `AudioLoop`, and `send_text` / `stop_session` talk
to that subprocess over its stdin / signals.  The FastAPI wrapper
(`gemini_api.py`) instead calls the `GEMINI_*` functions, all of which
act on `gemini_key._audio_loop` via `_ensure_audio_loop`.  We track
object identity of `AudioLoop` instances with an allocation counter:
every `AudioLoop(...)` construction takes a fresh identifier. -/

/-- The two processes' `AudioLoop` references: `apiAudioLoop` is
`gemini_key._audio_loop` in the FastAPI server process,
`streamlitLoop` the instance created inside the subprocess spawned by
`app.start_session`.  `nextId` is the allocation counter: identifiers
below it are in use. -/
structure GlueWorld where
  apiAudioLoop : Option Nat
  streamlitLoop : Option Nat
  nextId : Nat
  deriving DecidableEq, Repr

/-- The world before any control is used. -/
def initialWorld : GlueWorld := ⟨none, none, 0⟩

/-- `_ensure_audio_loop` at the object-identity level: allocate a
fresh `AudioLoop` when the global is `None`, else return the stored
one.  Every `GEMINI_*` wrapper call goes through this. -/
def ensureAudioLoopId (w : GlueWorld) : GlueWorld × Nat :=
  match w.apiAudioLoop with
  | some i => (w, i)
  | none => (⟨some w.nextId, w.streamlitLoop, w.nextId + 1⟩, w.nextId)

/-- `app.start_session`: `subprocess.Popen([sys.executable,
'gemini_live_cam.py'])`, whose `__main__` constructs a fresh
`AudioLoop` in the new process; the Streamlit controls then act on
that instance (through the subprocess pipes). -/
def startSession (w : GlueWorld) : GlueWorld :=
  ⟨w.apiAudioLoop, some w.nextId, w.nextId + 1⟩

/-! ## The FastAPI endpoints (gemini_api.py)

Each endpoint wraps one `GEMINI_*` call in `try/except`: on normal
completion it returns a body with `"status": "success"`, on any
exception it raises `HTTPException(status_code=500)`.  The outcome of
the underlying call is the `Except` argument.  `/stop` additionally
checks the API key first and raises 500 when `GEMINI_STOP` returned
`False` (lines 283-312; the inner `HTTPException` is re-raised as a
500 by the `except` clause). -/

/-- What an endpoint handler produces: a JSON body (with its `status`
and `message` fields) or a raised `HTTPException` with a status code. -/
inductive ApiResult where
  | body (status message : String)
  | httpError (code : Nat)
  deriving DecidableEq, Repr

/-- The shared try/except shape of the eight simple endpoints. -/
def simpleEndpoint (message : String) (call : Except String Unit) : ApiResult :=
  match call with
  | .ok _ => .body "success" message
  | .error _ => .httpError 500

/-- `POST /run` (`run_gemini`, lines 159-176). -/
def runEndpoint (mode : String) : Except String Unit → ApiResult :=
  simpleEndpoint ("Started Gemini Live in " ++ mode ++ " mode")

/-- `POST /send-text` (lines 178-191). -/
def sendTextEndpoint : Except String Unit → ApiResult :=
  simpleEndpoint "Text input sent"

/-- `POST /get-frames` (lines 193-206). -/
def getFramesEndpoint : Except String Unit → ApiResult :=
  simpleEndpoint "Frames captured"

/-- `POST /get-screen` (lines 208-221). -/
def getScreenEndpoint : Except String Unit → ApiResult :=
  simpleEndpoint "Screen captured"

/-- `POST /send-realtime` (lines 223-236). -/
def sendRealtimeEndpoint : Except String Unit → ApiResult :=
  simpleEndpoint "Realtime input sent"

/-- `POST /listen-audio` (lines 238-251). -/
def listenAudioEndpoint : Except String Unit → ApiResult :=
  simpleEndpoint "Listening to audio"

/-- `POST /receive-audio` (lines 253-266). -/
def receiveAudioEndpoint : Except String Unit → ApiResult :=
  simpleEndpoint "Audio received"

/-- `POST /play-audio` (lines 268-281). -/
def playAudioEndpoint : Except String Unit → ApiResult :=
  simpleEndpoint "Audio playback started"

/-- `POST /stop` (`stop_gemini`, lines 283-312): 500 when the API key
is missing, when `GEMINI_STOP` raises, or when it returns `False`
(the inner `HTTPException` is itself re-raised as a 500); a
`"success"` body when it returns `True`. -/
def stopEndpoint (apiKeyPresent : Bool) (call : Except String Bool) : ApiResult :=
  if !apiKeyPresent then .httpError 500
  else
    match call with
    | .ok true => .body "success" "Session ended successfully"
    | .ok false => .httpError 500
    | .error _ => .httpError 500

/-- Does the result carry a body whose `status` field is
`"success"`? -/
def isSuccessBody : ApiResult → Bool
  | .body s _ => s == "success"
  | .httpError _ => false

/-- Is the result a raised `HTTPException` with status code 500? -/
def isHttp500 : ApiResult → Bool
  | .body _ _ => false
  | .httpError c => c == 500

/-! ## Helper lemmas -/

/-- The turn-end drain loop of `receive_audio` leaves the queue
empty. -/
theorem drainQueue_eq_nil (l : List (List Nat)) : drainQueue l = [] := by
  induction l with
  | nil => rfl
  | cons _ _ ih => simpa [drainQueue] using ih

/-- The queue-clearing loops of `stop` leave the queue empty. -/
theorem clearLoop_eq_nil (l : List α) : clearLoop l = [] := by
  induction l with
  | nil => rfl
  | cons _ _ ih => simpa [clearLoop] using ih

/-- `play_audio` writes exactly the queued chunks, in queue order. -/
theorem playAudio_eq (l : List (List Nat)) : playAudio l = l := by
  induction l with
  | nil => rfl
  | cons b _ ih => simpa [playAudio] using ih

/-- Iterating the `receive_audio` loop body over a turn appends, in
order, exactly the truthy `data` fields of the responses. -/
theorem foldl_processResponse (rs : List LiveResponse) (q : List (List Nat)) :
    rs.foldl processResponse q = q ++ rs.filterMap truthyData := by
  induction rs generalizing q with
  | nil => simp
  | cons r t ih =>
      rw [List.foldl_cons, ih, List.filterMap_cons]
      cases h : truthyData r <;> simp [processResponse, h]

/-- When no response carries empty bytes, the truthy `data` fields are
exactly the present `data` fields. -/
theorem filterMap_truthyData_of_ne_nil (rs : List LiveResponse)
    (h : ∀ r ∈ rs, r.data ≠ some []) :
    rs.filterMap truthyData = rs.filterMap (fun r => r.data) := by
  induction rs with
  | nil => rfl
  | cons r t ih =>
      have hr : r.data ≠ some [] := h r (by simp)
      have ht : ∀ x ∈ t, x.data ≠ some [] := fun x hx => h x (by simp [hx])
      rw [List.filterMap_cons, List.filterMap_cons, ih ht]
      cases hd : r.data with
      | none => simp [truthyData, hd]
      | some d =>
          cases d with
          | nil => exact absurd hd hr
          | cons a b => simp [truthyData, hd]

/-! ## Claim theorems -/

/-- Claim C1, counterexample: the claim says every microphone chunk is
enqueued with its `data` field base64-encoded, but `listen_audio`
enqueues `{"data": data, "mime_type": "audio/pcm"}` with the raw bytes
read from the stream: for the one-byte chunk `[0]` the enqueued `data`
field is not the base64 encoding `"AA=="` of the captured bytes. -/
theorem mic_chunk_not_base64 :
    (micChunkPayload [0]).data ≠ PayloadData.str (b64encode [0]) := by
  decide

/-- Claim C1 (amended): camera frames from `_get_frame` and screen
captures from `_get_screen` are enqueued with `data` equal to the
base64 encoding of the captured JPEG bytes, but microphone chunks from
`listen_audio` are enqueued with `data` equal to the raw PCM bytes,
not base64-encoded. -/
theorem capture_payload_encoding (cap : CamRead) (key : Int)
    (screenBytes micBytes : List Nat)
    (hret : cap.ret = true) (hkey : key ≠ 27) :
    getFrame cap key
        = .payload ⟨.str (b64encode cap.jpegBytes), "image/jpeg"⟩
      ∧ getScreen screenBytes = ⟨.str (b64encode screenBytes), "image/jpeg"⟩
      ∧ micChunkPayload micBytes = ⟨.bytes micBytes, "audio/pcm"⟩ := by
  refine ⟨?_, rfl, rfl⟩
  simp [getFrame, hret, hkey]

/-- Witness for `capture_payload_encoding` at concrete inputs. -/
theorem capture_payload_encoding_witness :
    getFrame ⟨true, [255]⟩ 0
        = .payload ⟨.str (b64encode [255]), "image/jpeg"⟩
      ∧ getScreen [255] = ⟨.str (b64encode [255]), "image/jpeg"⟩
      ∧ micChunkPayload [255] = ⟨.bytes [255], "audio/pcm"⟩ :=
  capture_payload_encoding ⟨true, [255]⟩ 0 [255] [255] rfl (by decide)

/-- Claim C2, counterexample: after the Streamlit page's
`start_session` and a FastAPI wrapper call, the instance the Streamlit
controls act on (the `AudioLoop` inside the spawned subprocess) is not
the instance the wrapper acts on (`gemini_key._audio_loop`): the two
allocations are distinct objects. -/
theorem streamlit_api_loops_distinct :
    (startSession initialWorld).streamlitLoop
      ≠ some (ensureAudioLoopId (startSession initialWorld)).2 := by
  decide

/-- Claim C2 (amended): the FastAPI wrapper's `GEMINI_*` operations
all act on the single module-level `_audio_loop` instance — a second
`_ensure_audio_loop` call returns the same state and the same instance
— but the Streamlit page does not share it: `start_session` spawns
`gemini_live_cam.py` as a separate subprocess with its own freshly
constructed `AudioLoop`, so the Streamlit controls and the FastAPI
endpoints operate on distinct `AudioLoop` instances. -/
theorem wrapper_shares_loop_streamlit_does_not (w : GlueWorld)
    (hinv : ∀ i, w.apiAudioLoop = some i → i < w.nextId) :
    ensureAudioLoopId (ensureAudioLoopId w).1
        = ((ensureAudioLoopId w).1, (ensureAudioLoopId w).2)
      ∧ ∀ s, (startSession (ensureAudioLoopId w).1).streamlitLoop = some s →
          s ≠ (ensureAudioLoopId w).2 := by
  cases h : w.apiAudioLoop with
  | some i =>
      have hi := hinv i h
      refine ⟨by simp [ensureAudioLoopId, h], fun s hs => ?_⟩
      simp only [ensureAudioLoopId, h, startSession] at hs ⊢
      simp at hs
      omega
  | none =>
      refine ⟨by simp [ensureAudioLoopId, h], fun s hs => ?_⟩
      simp only [ensureAudioLoopId, h, startSession] at hs ⊢
      simp at hs
      omega

/-- Witness for `wrapper_shares_loop_streamlit_does_not` at the
initial world. -/
theorem wrapper_shares_loop_witness :
    ensureAudioLoopId (ensureAudioLoopId initialWorld).1
        = ((ensureAudioLoopId initialWorld).1, (ensureAudioLoopId initialWorld).2)
      ∧ (1 : Nat) ≠ (ensureAudioLoopId initialWorld).2 := by
  have h := wrapper_shares_loop_streamlit_does_not initialWorld
    (by intro i hi; simp [initialWorld] at hi)
  exact ⟨h.1, h.2 1 rfl⟩

/-- Claim C3, counterexample: `run` does not always start one of the
two video producers — with `video_mode = "none"` (a mode the CLI
offers) it starts neither `get_frames` nor `get_screen`. -/
theorem run_mode_none_starts_no_video :
    "get_frames" ∉ runTasks "none" ∧ "get_screen" ∉ runTasks "none" := by
  decide

/-- Claim C3 (amended): `run` always starts `listen_audio` and
`play_audio`; it starts `get_frames` exactly when `video_mode` is
`"camera"` and `get_screen` exactly when it is `"screen"` — never
both — and for any other mode (such as `"none"`) it starts neither
video producer. -/
theorem run_tasks_by_mode (mode : String) :
    "listen_audio" ∈ runTasks mode
      ∧ "play_audio" ∈ runTasks mode
      ∧ ("get_frames" ∈ runTasks mode ↔ mode = "camera")
      ∧ ("get_screen" ∈ runTasks mode ↔ mode = "screen")
      ∧ ¬("get_frames" ∈ runTasks mode ∧ "get_screen" ∈ runTasks mode) := by
  by_cases hc : mode = "camera"
  · subst hc
    decide
  · by_cases hs : mode = "screen"
    · subst hs
      decide
    · have hv : videoTasks mode = [] := by simp [videoTasks, hc, hs]
      refine ⟨?_, ?_, iff_of_false ?_ hc, iff_of_false ?_ hs, ?_⟩ <;>
        simp only [runTasks, hv] <;> decide

/-- Claim C4: with an initialized session, `send_realtime` makes
exactly one `send_realtime_input` call per dequeued message, with a
Blob whose `data` and `mime_type` equal the dequeued fields, in FIFO
queue order. -/
theorem send_realtime_fifo (s : Session) (msgs : List Payload) :
    sendRealtime (some s) msgs
      = msgs.map (fun m => ⟨m.data, m.mime_type⟩) := by
  induction msgs with
  | nil => rfl
  | cons m t ih => simp [sendRealtime, ih]

/-- Claim C5: `AudioLoop.stop` returns `True` and leaves
`audio_in_queue` and `out_queue` empty, `session = None` and
`audio_stream = None`; and after `GEMINI_STOP()` the module-level
`_audio_loop` is `None`, so any subsequent wrapper operation makes
`_ensure_audio_loop` construct a fresh `AudioLoop`. -/
theorem stop_cleanup_complete (s : AudioLoopState) (k : KeyState)
    (mode : String) :
    ((stop s).2 = true
      ∧ (stop s).1.audio_in_queue = []
      ∧ (stop s).1.out_queue = []
      ∧ (stop s).1.session = none
      ∧ (stop s).1.audio_stream = none)
    ∧ ((geminiStop k).1.audio_loop = none
      ∧ ensureAudioLoop (geminiStop k).1 mode
          = (⟨some (initAudioLoop mode)⟩, initAudioLoop mode)) := by
  constructor
  · cases hstream : s.audio_stream <;> cases hsess : s.session <;>
      simp [stop, clearLoop_eq_nil, hstream, hsess]
  · cases hk : k.audio_loop with
    | none =>
        refine ⟨by simp [geminiStop, hk], ?_⟩
        simp [geminiStop, hk, ensureAudioLoop]
    | some l =>
        refine ⟨by simp [geminiStop, hk], ?_⟩
        simp [geminiStop, hk, ensureAudioLoop]

/-- Claim C6: every simple FastAPI endpoint returns a body with
status "success" when its underlying `GEMINI_*` call completes, and
raises HTTP 500 when the call raises; `/stop` additionally raises
HTTP 500 whenever `GEMINI_STOP` returns `False`. -/
theorem endpoints_status_contract :
    (∀ mode : String, isSuccessBody (runEndpoint mode (Except.ok ())) = true)
      ∧ (∀ mode e : String,
          isHttp500 (runEndpoint mode (Except.error e)) = true)
      ∧ isSuccessBody (sendTextEndpoint (Except.ok ())) = true
      ∧ (∀ e, isHttp500 (sendTextEndpoint (Except.error e)) = true)
      ∧ isSuccessBody (getFramesEndpoint (Except.ok ())) = true
      ∧ (∀ e, isHttp500 (getFramesEndpoint (Except.error e)) = true)
      ∧ isSuccessBody (getScreenEndpoint (Except.ok ())) = true
      ∧ (∀ e, isHttp500 (getScreenEndpoint (Except.error e)) = true)
      ∧ isSuccessBody (sendRealtimeEndpoint (Except.ok ())) = true
      ∧ (∀ e, isHttp500 (sendRealtimeEndpoint (Except.error e)) = true)
      ∧ isSuccessBody (listenAudioEndpoint (Except.ok ())) = true
      ∧ (∀ e, isHttp500 (listenAudioEndpoint (Except.error e)) = true)
      ∧ isSuccessBody (receiveAudioEndpoint (Except.ok ())) = true
      ∧ (∀ e, isHttp500 (receiveAudioEndpoint (Except.error e)) = true)
      ∧ isSuccessBody (playAudioEndpoint (Except.ok ())) = true
      ∧ (∀ e, isHttp500 (playAudioEndpoint (Except.error e)) = true)
      ∧ isSuccessBody (stopEndpoint true (Except.ok true)) = true
      ∧ (∀ e, isHttp500 (stopEndpoint true (Except.error e)) = true)
      ∧ isHttp500 (stopEndpoint true (Except.ok false)) = true :=
  ⟨fun _ => rfl, fun _ _ => rfl, rfl, fun _ => rfl, rfl, fun _ => rfl,
   rfl, fun _ => rfl, rfl, fun _ => rfl, rfl, fun _ => rfl, rfl,
   fun _ => rfl, rfl, fun _ => rfl, rfl, fun _ => rfl, rfl⟩

/-- Claim C7: within a turn, every (nonempty) `response.data` chunk
read by `receive_audio` is enqueued on `audio_in_queue`, and
`play_audio` writes the queued chunks in FIFO order, so the sequence
written to the speaker equals the sequence of data chunks received in
that turn.  (Python truthiness of `if data := response.data` treats
empty bytes as absent data, so chunks are assumed nonempty.) -/
theorem turn_playback_order (turn : List LiveResponse)
    (h : ∀ r ∈ turn, r.data ≠ some []) :
    playAudio (turn.foldl processResponse [])
      = turn.filterMap (fun r => r.data) := by
  rw [playAudio_eq, foldl_processResponse, List.nil_append,
      filterMap_truthyData_of_ne_nil turn h]

/-- Witness for `turn_playback_order` on a concrete three-response
turn (audio, text, audio). -/
theorem turn_playback_order_witness :
    playAudio (List.foldl processResponse []
        [⟨some [1, 2], none⟩, ⟨none, some "ok"⟩, ⟨some [3], none⟩])
      = [[1, 2], [3]] :=
  (turn_playback_order
      [⟨some [1, 2], none⟩, ⟨none, some "ok"⟩, ⟨some [3], none⟩]
      (by decide)).trans (by decide)

/-- Claim C8: `GEMINI_STOP()` with no instance ever created returns
`True` without calling `AudioLoop.stop` and leaves `_audio_loop` as
`None`; and stopping is idempotent: a second `GEMINI_STOP()` after any
first one again returns `True` without calling `stop`. -/
theorem gemini_stop_idempotent_safe :
    geminiStop ⟨none⟩ = (⟨none⟩, true, false)
      ∧ ∀ k : KeyState,
          geminiStop (geminiStop k).1 = ((geminiStop k).1, true, false) := by
  refine ⟨rfl, fun k => ?_⟩
  cases hk : k.audio_loop <;> simp [geminiStop, hk]

/-- Claim C9: once the module-level instance exists,
`_ensure_audio_loop` ignores its `mode` argument: it returns the
stored instance and leaves the module state unchanged, so the
instance's `video_mode` stays what it was at first creation. -/
theorem ensure_ignores_mode (k : KeyState) (l : AudioLoopState)
    (mode : String) (h : k.audio_loop = some l) :
    ensureAudioLoop k mode = (k, l) := by
  simp [ensureAudioLoop, h]

/-- Witness for `ensure_ignores_mode`: after `GEMINI_RUN` in camera
mode, the loop `GEMINI_GET_SCREEN` acts on still has
`video_mode = "camera"`. -/
theorem ensure_ignores_mode_witness :
    ((ensureAudioLoop (ensureAudioLoop ⟨none⟩ "camera").1 "screen").2).video_mode
      = "camera" := by
  rw [ensure_ignores_mode (ensureAudioLoop ⟨none⟩ "camera").1
      (initAudioLoop "camera") "screen" rfl]
  rfl

/-- Claim C10: at the end of every turn iteration of `receive_audio`,
the `audio_in_queue` drain loop leaves the playback queue empty, so
enqueued-but-unplayed chunks are discarded when a turn completes. -/
theorem turn_drains_playback_queue (q : List (List Nat))
    (turn : List LiveResponse) :
    receiveAudioTurn q turn = [] :=
  drainQueue_eq_nil _

end GeminiLiveCam
